import Mathlib

/-
Shallow embedding of the authorization and data-consistency core of the
HDIL backend (Express + Mongoose REST service).  Each route handler is
translated into a pure Lean function over an explicit document store,
modelled as an association list from document ids (Nat) to documents.
Dates are modelled as Int timestamps; JS date comparison (d1 < d2) maps to
Int comparison of the timestamps.  HTTP outcomes are modelled as inductive
result types, one constructor per distinct response branch of the handler.
-/

namespace HDIL

/-- Association-list lookup, mirroring Model.findById: returns the first
entry whose id matches, if any. -/
def lookupId {α : Type} : List (Nat × α) → Nat → Option α
  | [], _ => none
  | e :: rest, id => if e.1 = id then some e.2 else lookupId rest id

/-- Mirrors document.save / findByIdAndUpdate on an existing document:
replaces the payload of every entry with the given id. -/
def setById {α : Type} : List (Nat × α) → Nat → α → List (Nat × α)
  | [], _, _ => []
  | e :: rest, id, a =>
    if e.1 = id then (id, a) :: setById rest id a else e :: setById rest id a

/-- Mirrors document.remove: deletes every entry with the given id. -/
def removeById {α : Type} : List (Nat × α) → Nat → List (Nat × α)
  | [], _ => []
  | e :: rest, id => if e.1 = id then removeById rest id else e :: removeById rest id

/- ================= Polls (src/routes/polls.js, models/Poll.js) ============ -/

/-- One poll option, from PollSchema.options: text plus a vote counter
defaulting to 0. -/
structure PollOption where
  text : String
  votes : Nat
deriving Repr, DecidableEq

/-- Poll document, from PollSchema: question, ordered options, expiry date,
creator id and the votedBy list of user ids. -/
structure Poll where
  question : String
  options : List PollOption
  expiresAt : Int
  createdBy : Nat
  votedBy : List Nat
deriving Repr, DecidableEq

/-- Outcome of PUT /vote/:id (src/routes/polls.js lines 85-120).  The
constructors correspond to the distinct response branches: 404 poll not
found; 400 "This poll has expired" (the Expired class of the spec); 400
"You have already voted on this poll" (the Conflict class); 400 "Invalid
option" (the ValidationError/BadRequest class); the 500 catch branch; and
the 200 success response carrying the saved poll. -/
inductive VoteOutcome where
  | notFound
  | pollExpired
  | alreadyVoted
  | invalidOption
  | serverError
  | voted (p : Poll)
deriving Repr, DecidableEq

/-- Mirrors poll.options[i].votes += 1 at a valid index i. -/
def incVotes : List PollOption → Nat → List PollOption
  | [], _ => []
  | o :: rest, 0 => { o with votes := o.votes + 1 } :: rest
  | o :: rest, n + 1 => o :: incVotes rest n

/-- Sum of vote counters over a list of options. -/
def sumVotes : List PollOption → Nat
  | [] => 0
  | o :: rest => o.votes + sumVotes rest

/-- Total vote count of a poll across all its options. -/
def totalVotes (p : Poll) : Nat := sumVotes p.options

/-- Handler of PUT /vote/:id.  Faithful to the source order of checks:
findById, expiry, votedBy membership, option bounds, then mutate and save.
The request body field optionId is a JS number or undefined, modelled as
Option Int.  With optionId undefined both JS comparisons
(optionId < 0, optionId >= poll.options.length) evaluate to false, so the
bounds guard is passed; poll.options[undefined].votes then throws a
TypeError which the catch block (err.kind is not "ObjectId") answers with
the generic 500 response, and the poll is never saved. -/
def putVote (st : List (Nat × Poll)) (pollId userId : Nat) (optionId : Option Int)
    (now : Int) : VoteOutcome × List (Nat × Poll) :=
  match lookupId st pollId with
  | none => (.notFound, st)
  | some poll =>
    if poll.expiresAt < now then (.pollExpired, st)
    else if userId ∈ poll.votedBy then (.alreadyVoted, st)
    else
      match optionId with
      | none => (.serverError, st)
      | some i =>
        if i < 0 ∨ i ≥ (poll.options.length : Int) then (.invalidOption, st)
        else
          let saved : Poll :=
            { poll with options := incVotes poll.options i.toNat,
                        votedBy := poll.votedBy ++ [userId] }
          (.voted saved, setById st pollId saved)

/-- Outcome of DELETE /:id on polls (src/routes/polls.js lines 126-148):
401 "Not authorized" for a non-admin caller, 404 poll not found, 200 on
removal. -/
inductive PollDeleteOutcome where
  | notAuthorized
  | notFound
  | removed
deriving Repr, DecidableEq

/-- Handler of DELETE /:id on polls.  Faithful to the source order: the
admin-role check comes before the existence lookup. -/
def deletePoll (role : String) (st : List (Nat × Poll)) (pollId : Nat) :
    PollDeleteOutcome × List (Nat × Poll) :=
  if role ≠ "admin" then (.notAuthorized, st)
  else
    match lookupId st pollId with
    | none => (.notFound, st)
    | some _ => (.removed, removeById st pollId)

/- ============ Workshops (src/routes/workshops.js, models/Workshop.js) ===== -/

/-- Workshop document, from WorkshopSchema: title, description, date,
location, numeric capacity, the registeredUsers list of user ids and the
creator id. -/
structure Workshop where
  title : String
  description : String
  date : Int
  location : String
  capacity : Int
  registeredUsers : List Nat
  createdBy : Nat
deriving Repr, DecidableEq

/-- Outcome of POST /:id/register (src/routes/workshops.js lines 139-166):
404 workshop not found; 400 "User already registered" (the Conflict class);
400 "Workshop is full" (the CapacityExceeded class); 200 with the saved
workshop. -/
inductive RegisterOutcome where
  | notFound
  | alreadyRegistered
  | workshopFull
  | registered (w : Workshop)
deriving Repr, DecidableEq

/-- Document-level core of the register handler, in source order: votedBy
style membership check first, then the capacity comparison
registeredUsers.length >= capacity, then push. -/
def registerW (w : Workshop) (userId : Nat) : RegisterOutcome :=
  if userId ∈ w.registeredUsers then .alreadyRegistered
  else if (w.registeredUsers.length : Int) ≥ w.capacity then .workshopFull
  else .registered { w with registeredUsers := w.registeredUsers ++ [userId] }

/-- Handler of POST /:id/register: findById, then the document-level step;
the workshop is saved only on the success branch. -/
def postRegister (st : List (Nat × Workshop)) (workshopId userId : Nat) :
    RegisterOutcome × List (Nat × Workshop) :=
  match lookupId st workshopId with
  | none => (.notFound, st)
  | some w =>
    match registerW w userId with
    | .registered saved => (.registered saved, setById st workshopId saved)
    | r => (r, st)

/-- Request body of PUT /:id on workshops.  Each field is Option-valued:
none models a missing field (express-validator rejects those) and, for
capacity, also a value that fails the isNumeric check. -/
structure WorkshopBody where
  title : Option String
  description : Option String
  date : Option Int
  location : Option String
  capacity : Option Int
deriving Repr, DecidableEq

/-- express-validator check: field present and non-empty. -/
def reqNonEmpty : Option String → Bool
  | some s => !(s == "")
  | none => false

/-- Validation middleware of PUT /:id on workshops: title, description,
date and location are required non-empty, capacity must be numeric. -/
def workshopBodyValid (b : WorkshopBody) : Bool :=
  reqNonEmpty b.title && reqNonEmpty b.description && b.date.isSome &&
    reqNonEmpty b.location && b.capacity.isSome

/-- Mongoose $set with the request body: fields present in the body are
written, absent (undefined) keys are stripped from the update and leave the
stored value unchanged. -/
def applyWorkshopSet (w : Workshop) (b : WorkshopBody) : Workshop :=
  { w with
    title := b.title.getD w.title,
    description := b.description.getD w.description,
    date := b.date.getD w.date,
    location := b.location.getD w.location,
    capacity := b.capacity.getD w.capacity }

/-- Outcome of PUT /:id on workshops (src/routes/workshops.js lines 70-107):
400 validation errors, 401 "Not authorized", 404 not found, 200 with the
updated workshop. -/
inductive WorkshopPutOutcome where
  | validationError
  | notAuthorized
  | notFound
  | updated (w : Workshop)
deriving Repr, DecidableEq

/-- Handler of PUT /:id on workshops.  Faithful to the source order:
express-validator input checks run first, then the admin-role check, then
the existence lookup, then the mutation. -/
def putWorkshop (role : String) (st : List (Nat × Workshop)) (workshopId : Nat)
    (b : WorkshopBody) : WorkshopPutOutcome × List (Nat × Workshop) :=
  if workshopBodyValid b = false then (.validationError, st)
  else if role ≠ "admin" then (.notAuthorized, st)
  else
    match lookupId st workshopId with
    | none => (.notFound, st)
    | some w =>
      let saved := applyWorkshopSet w b
      (.updated saved, setById st workshopId saved)

/-- Workshop states reachable through the code paths that build and mutate
registeredUsers: creation via POST / (which starts the list empty; the
capacity of a workshop as specified is a non-negative integer) followed by
any number of accepted registrations via POST /:id/register. -/
inductive WorkshopReachable : Workshop → Prop where
  | created (title description location : String) (date capacity : Int)
      (createdBy : Nat) (hcap : 0 ≤ capacity) :
      WorkshopReachable
        { title := title, description := description, date := date,
          location := location, capacity := capacity,
          registeredUsers := [], createdBy := createdBy }
  | registered (w saved : Workshop) (u : Nat)
      (hreach : WorkshopReachable w)
      (hstep : registerW w u = .registered saved) :
      WorkshopReachable saved

/- ============ Updates (src/routes/updates.js, models/Update.js) =========== -/

/-- Update document, from UpdateSchema: type enum, title, content, optional
image and redirect URLs, creator id. -/
structure UpdateDoc where
  type : String
  title : String
  content : String
  imageUrl : Option String
  redirectUrl : Option String
  createdBy : Nat
deriving Repr, DecidableEq

/-- Request body of the update routes.  none models a missing (undefined)
field. -/
structure UpdateBody where
  type : Option String
  title : Option String
  content : Option String
  redirectUrl : Option String
deriving Repr, DecidableEq

/-- JS String.startsWith, modelled over the character sequence (the source
only ever tests the ASCII prefix "http"). -/
def jsStartsWith (v pre : String) : Bool := v.data.take pre.data.length == pre.data

/-- JS falsiness of an optional string value: undefined or the empty
string. -/
def strFalsy : Option String → Bool
  | none => true
  | some v => v == ""

/-- Validation middleware of POST / on updates: type, title and content are
required non-empty; redirectUrl is optional, and when present the custom
check rejects an empty value if the body type is "blogs".  A blogs body
with redirectUrl entirely absent passes this validation because the custom
check is skipped for a missing optional field. -/
def postUpdateBodyValid (b : UpdateBody) : Bool :=
  reqNonEmpty b.type && reqNonEmpty b.title && reqNonEmpty b.content &&
    (match b.redirectUrl with
     | none => true
     | some v => !((b.type == some "blogs") && (v == "")))

/-- Validation middleware of PUT /:id on updates: as on create, plus the
custom check that a present non-empty redirectUrl must start with
"http". -/
def putUpdateBodyValid (b : UpdateBody) : Bool :=
  reqNonEmpty b.type && reqNonEmpty b.title && reqNonEmpty b.content &&
    (match b.redirectUrl with
     | none => true
     | some v =>
       !((b.type == some "blogs") && (v == "")) &&
         !(!(v == "") && !(jsStartsWith v "http")))

/-- Outcome of the update write routes (src/routes/updates.js lines 47-104
and 110-168): 400 validation errors; 403/401 for a non-admin caller; 404 on
the update path when the id does not resolve; 400 "Redirect URL is required
for blog posts" on the update path; success carrying the document that was
saved. -/
inductive UpdateWriteOutcome where
  | validationError
  | notAuthorized
  | notFound
  | redirectUrlRequired
  | saved (d : UpdateDoc)
deriving Repr, DecidableEq

/-- Handler of POST / on updates (create path).  The stored redirectUrl is
type === "blogs" ? redirectUrl : undefined, so a non-blogs create never
persists a redirect URL. -/
def postUpdate (role : String) (userId : Nat) (b : UpdateBody)
    (imageUrl : Option String) : UpdateWriteOutcome :=
  if postUpdateBodyValid b = false then .validationError
  else if role ≠ "admin" then .notAuthorized
  else
    .saved
      { type := b.type.getD "",
        title := b.title.getD "",
        content := b.content.getD "",
        imageUrl := imageUrl,
        redirectUrl := if b.type = some "blogs" then b.redirectUrl else none,
        createdBy := userId }

/-- Mongoose 6 $set with the request body: keys present in the body are
written; keys whose value is undefined are stripped from the update, so the
stored field keeps its previous value.  The handler assignment
req.body.redirectUrl = undefined therefore leaves the stored redirectUrl
untouched rather than clearing it. -/
def applyUpdateSet (d : UpdateDoc) (b : UpdateBody) : UpdateDoc :=
  { d with
    type := b.type.getD d.type,
    title := b.title.getD d.title,
    content := b.content.getD d.content,
    redirectUrl :=
      match b.redirectUrl with
      | some v => some v
      | none => d.redirectUrl }

/-- Handler of PUT /:id on updates.  Source order: validation, admin check,
findById, the explicit "Redirect URL is required for blog posts" guard
(body type "blogs" with falsy redirectUrl), then the assignment
req.body.redirectUrl = undefined when the body type is not "blogs",
followed by findByIdAndUpdate with $set of the body. -/
def putUpdate (role : String) (st : List (Nat × UpdateDoc)) (id : Nat)
    (b : UpdateBody) : UpdateWriteOutcome × List (Nat × UpdateDoc) :=
  if putUpdateBodyValid b = false then (.validationError, st)
  else if role ≠ "admin" then (.notAuthorized, st)
  else
    match lookupId st id with
    | none => (.notFound, st)
    | some d =>
      if b.type = some "blogs" ∧ strFalsy b.redirectUrl then
        (.redirectUrlRequired, st)
      else
        let b2 := if b.type = some "blogs" then b else { b with redirectUrl := none }
        let saved := applyUpdateSet d b2
        (.saved saved, setById st id saved)

/- ====== Feedback (src/routes/feedback.js, models/feedback.js) ============ -/

/-- Feedback question document, from FeedbackQuestionSchema. -/
structure FeedbackQuestion where
  title : String
  description : String
  category : String
  isActive : Bool
  createdBy : Nat
  expiresAt : Option Int
deriving Repr, DecidableEq

/-- Feedback response document, from FeedbackResponseSchema. -/
structure FeedbackResponse where
  feedbackId : Nat
  response : String
  rating : Option Int
  status : String
  adminComment : Option String
  createdBy : Nat
deriving Repr, DecidableEq

/-- The two feedback collections. -/
structure FeedbackStore where
  questions : List (Nat × FeedbackQuestion)
  responses : List FeedbackResponse
deriving Repr, DecidableEq

/-- Outcome of DELETE /questions/:id (src/routes/feedback.js lines
176-210): 401 for a non-admin; 404 not found; the soft-delete branch taken
when at least one response references the question; the hard-delete
branch. -/
inductive QuestionDeleteOutcome where
  | notAuthorized
  | notFound
  | deactivated
  | removed
deriving Repr, DecidableEq

/-- Response message returned by each branch of the question delete
handler. -/
def questionDeleteMsg : QuestionDeleteOutcome → String
  | .notAuthorized => "Not authorized"
  | .notFound => "Feedback question not found"
  | .deactivated => "Feedback question deactivated (has responses)"
  | .removed => "Feedback question removed"

/-- Handler of DELETE /questions/:id: admin check, findById, then find all
responses with this feedbackId; if any exist set isActive to false and
save, otherwise remove the question. -/
def deleteQuestion (role : String) (st : FeedbackStore) (qid : Nat) :
    QuestionDeleteOutcome × FeedbackStore :=
  if role ≠ "admin" then (.notAuthorized, st)
  else
    match lookupId st.questions qid with
    | none => (.notFound, st)
    | some q =>
      let responses := st.responses.filter (fun r => r.feedbackId == qid)
      if responses.length > 0 then
        (.deactivated,
         { st with questions := setById st.questions qid { q with isActive := false } })
      else
        (.removed, { st with questions := removeById st.questions qid })

/-- Outcome of GET /questions/:id, used to state retrievability. -/
inductive QuestionGetOutcome where
  | notFound
  | found (q : FeedbackQuestion)
deriving Repr, DecidableEq

/-- Handler of GET /questions/:id: a plain findById with no isActive
filter. -/
def getQuestion (st : FeedbackStore) (qid : Nat) : QuestionGetOutcome :=
  match lookupId st.questions qid with
  | none => .notFound
  | some q => .found q

/-- Predicate of the findOne duplicate lookup in POST /responses: a
response row keyed by the same question and the same user. -/
def responsePair (fid u : Nat) (r : FeedbackResponse) : Bool :=
  r.feedbackId == fid && r.createdBy == u

/-- Expiry test of POST /responses: question.expiresAt is set and lies in
the past. -/
def questionExpired (q : FeedbackQuestion) (now : Int) : Bool :=
  match q.expiresAt with
  | some e => decide (e < now)
  | none => false

/-- JS expression rating || null of the response handler: a missing or zero
rating is stored as null. -/
def ratingOrNull : Option Int → Option Int
  | none => none
  | some x => if x = 0 then none else some x

/-- The response row inserted by POST /responses on acceptance. -/
def newResponse (u fid : Nat) (resp : String) (rating : Option Int) : FeedbackResponse :=
  { feedbackId := fid, response := resp, rating := ratingOrNull rating,
    status := "pending", adminComment := none, createdBy := u }

/-- Outcome of POST /responses (src/routes/feedback.js lines 278-339): 400
validation errors; 404 question not found; 400 "no longer active"; 400
"has expired"; 400 "You have already submitted feedback for this question"
(the Conflict class); 200 with the saved response. -/
inductive ResponseOutcome where
  | validationError
  | questionNotFound
  | questionInactive
  | questionExpired
  | alreadyResponded
  | saved (r : FeedbackResponse)
deriving Repr, DecidableEq

/-- Acceptance preconditions of a response submission, read off the guard
sequence of the handler: the question resolves, is active, is not expired,
and no prior response by this user for this question exists. -/
def submissionPreconditions (st : FeedbackStore) (u fid : Nat) (now : Int) : Bool :=
  (match lookupId st.questions fid with
   | some q => q.isActive && !(questionExpired q now)
   | none => false) && !(st.responses.any (responsePair fid u))

/-- Handler of POST /responses.  Source order: express-validator checks
(feedbackId and response required; the body carries the already-parsed
question id, so only the response text check is modelled), findById on the
question, isActive, expiry, the findOne duplicate check, then insert. -/
def postResponse (st : FeedbackStore) (u fid : Nat) (resp : String)
    (rating : Option Int) (now : Int) : ResponseOutcome × FeedbackStore :=
  if resp = "" then (.validationError, st)
  else
    match lookupId st.questions fid with
    | none => (.questionNotFound, st)
    | some q =>
      if q.isActive = false then (.questionInactive, st)
      else if questionExpired q now then (.questionExpired, st)
      else if st.responses.any (responsePair fid u) then (.alreadyResponded, st)
      else
        (.saved (newResponse u fid resp rating),
         { st with responses := st.responses ++ [newResponse u fid resp rating] })

/-- Invariant of the FeedbackResponse collection: at most one response per
(question, user) pair. -/
def atMostOneResponse (st : FeedbackStore) : Prop :=
  ∀ fid u : Nat, st.responses.countP (responsePair fid u) ≤ 1

/- ========== Industries (src/routes/industries.js, models/Industry.js) ===== -/

/-- Nested product entry of an industry. -/
structure Product where
  name : String
  description : Option String
  price : Int
  images : List String
deriving Repr, DecidableEq

/-- Vacancy sub-object of an industry. -/
structure Vacancy where
  available : Bool
  description : Option String
deriving Repr, DecidableEq

/-- Industry document, from IndustrySchema. -/
structure Industry where
  name : String
  description : String
  products : List Product
  materials : List String
  gstInfo : String
  contactNumber : String
  vacancy : Vacancy
  owner : Nat
  images : List String
deriving Repr, DecidableEq

/-- Request body of PUT /:id on industries; every field is optional and an
absent field is stripped from the $set update. -/
structure IndustryBody where
  name : Option String
  description : Option String
  products : Option (List Product)
  materials : Option (List String)
  gstInfo : Option String
  contactNumber : Option String
  vacancy : Option Vacancy
  images : Option (List String)
deriving Repr, DecidableEq

/-- Outcome of the industry mutation routes (src/routes/industries.js lines
143-180 and 185-208): 404 not found; 401 "Not authorized" for a caller who
is neither the owner nor an admin (the Forbidden class of the spec); the
success responses. -/
inductive IndustryOutcome where
  | notFound
  | notAuthorized
  | updated (i : Industry)
  | removed
deriving Repr, DecidableEq

/-- Mongoose $set with the body of PUT /:id on industries. -/
def applyIndustrySet (ind : Industry) (b : IndustryBody) : Industry :=
  { ind with
    name := b.name.getD ind.name,
    description := b.description.getD ind.description,
    products := b.products.getD ind.products,
    materials := b.materials.getD ind.materials,
    gstInfo := b.gstInfo.getD ind.gstInfo,
    contactNumber := b.contactNumber.getD ind.contactNumber,
    vacancy := b.vacancy.getD ind.vacancy,
    images := b.images.getD ind.images }

/-- Handler of PUT /:id on industries.  Source order: findById (404), then
the ownership-or-admin check (401), then findByIdAndUpdate. -/
def putIndustry (callerId : Nat) (role : String) (st : List (Nat × Industry))
    (id : Nat) (b : IndustryBody) : IndustryOutcome × List (Nat × Industry) :=
  match lookupId st id with
  | none => (.notFound, st)
  | some ind =>
    if ind.owner ≠ callerId ∧ role ≠ "admin" then (.notAuthorized, st)
    else
      let saved := applyIndustrySet ind b
      (.updated saved, setById st id saved)

/-- Handler of DELETE /:id on industries.  Source order: findById (404),
then the ownership-or-admin check (401), then remove. -/
def deleteIndustry (callerId : Nat) (role : String) (st : List (Nat × Industry))
    (id : Nat) : IndustryOutcome × List (Nat × Industry) :=
  match lookupId st id with
  | none => (.notFound, st)
  | some ind =>
    if ind.owner ≠ callerId ∧ role ≠ "admin" then (.notAuthorized, st)
    else (.removed, removeById st id)

/- ======= Users (models/User.js in src/unnamed/part_003, routes/auth.js
in the tail of src/routes/feedback.js) ======= -/

/-- User document, from UserSchema.  The password field holds the stored
credential; hashing internals are an external collaborator and are
modelled opaquely. -/
structure User where
  username : String
  email : String
  password : String
  role : String
  status : String
  expiryDate : Int
deriving Repr, DecidableEq

/-- The pre-save middleware of UserSchema: if expiryDate lies in the past
at save time, status is set to "inactive". -/
def preSaveExpiry (u : User) (now : Int) : User :=
  if u.expiryDate < now then { u with status := "inactive" } else u

/-- bcrypt.compare of the login route, modelled as equality of the entered
credential with the stored one (hashing internals are out of scope). -/
def bcryptCompare (entered stored : String) : Bool := entered == stored

/-- Outcome of POST /login: 400 "Invalid Credentials" when the email does
not resolve or the password mismatches; 403 "Account is inactive" when the
status is not "active"; 200 with the token payload role on success. -/
inductive LoginOutcome where
  | invalidCredentials
  | accountInactive
  | loggedIn (role : String)
deriving Repr, DecidableEq

/-- Handler of POST /login.  Source order: findOne by email, the status
check user.status !== "active", then the password comparison.  The handler
never reads expiryDate. -/
def login (users : List User) (email password : String) : LoginOutcome :=
  match users.find? (fun u => u.email == email) with
  | none => .invalidCredentials
  | some u =>
    if u.status ≠ "active" then .accountInactive
    else if bcryptCompare password u.password = false then .invalidCredentials
    else .loggedIn u.role

/- ================= Concrete sample documents ============================= -/

/-- Poll of the spec example scenario: two options, no votes yet except
user 7 recorded in votedBy. -/
def pollA : Poll :=
  { question := "Lunch?",
    options := [{ text := "Pizza", votes := 0 }, { text := "Salad", votes := 0 }],
    expiresAt := 100, createdBy := 1, votedBy := [7] }

/-- pollA after an accepted vote by user 9 on option 0. -/
def pollA9 : Poll :=
  { pollA with
    options := [{ text := "Pizza", votes := 1 }, { text := "Salad", votes := 0 }],
    votedBy := [7, 9] }

/-- Workshop at capacity: capacity 1 with user 3 registered. -/
def wsA : Workshop :=
  { title := "W", description := "D", date := 10, location := "L",
    capacity := 1, registeredUsers := [3], createdBy := 1 }

/-- Freshly created workshop of capacity 2. -/
def wsB : Workshop :=
  { title := "W", description := "D", date := 10, location := "L",
    capacity := 2, registeredUsers := [], createdBy := 1 }

/-- wsB after an accepted registration by user 5. -/
def wsB5 : Workshop := { wsB with registeredUsers := [5] }

/-- Workshop update body with every field missing: fails validation. -/
def emptyWorkshopBody : WorkshopBody :=
  { title := none, description := none, date := none, location := none,
    capacity := none }

/-- Workshop update body passing validation. -/
def validWorkshopBody : WorkshopBody :=
  { title := some "W2", description := some "D2", date := some 11,
    location := some "L2", capacity := some 3 }

/-- Stored blogs update carrying a redirect URL. -/
def blogUpdateDoc : UpdateDoc :=
  { type := "blogs", title := "t", content := "c", imageUrl := none,
    redirectUrl := some "http://old", createdBy := 1 }

/-- Update request that changes the type away from blogs while supplying a
redirect URL. -/
def awayFromBlogsBody : UpdateBody :=
  { type := some "news", title := some "t", content := some "c",
    redirectUrl := some "http://new" }

/-- The document actually stored by the update path for awayFromBlogsBody
applied to blogUpdateDoc: the type changes but the old redirect URL
survives. -/
def newsKeptDoc : UpdateDoc := { blogUpdateDoc with type := "news" }

/-- The document the create path builds from awayFromBlogsBody: no redirect
URL is persisted for a non-blogs type. -/
def newsCreatedDoc : UpdateDoc :=
  { type := "news", title := "t", content := "c", imageUrl := none,
    redirectUrl := none, createdBy := 1 }

/-- An active feedback question with no expiry. -/
def qActive : FeedbackQuestion :=
  { title := "Q", description := "D", category := "general", isActive := true,
    createdBy := 1, expiresAt := none }

/-- A response by user 7 to question 1. -/
def respA : FeedbackResponse :=
  { feedbackId := 1, response := "fine", rating := none, status := "pending",
    adminComment := none, createdBy := 7 }

/-- Feedback store holding question 1 and no responses. -/
def stNoResp : FeedbackStore := { questions := [(1, qActive)], responses := [] }

/-- Feedback store holding question 1 and one response to it. -/
def stWithResp : FeedbackStore :=
  { questions := [(1, qActive)], responses := [respA] }

/-- Industry owned by user 1. -/
def indA : Industry :=
  { name := "N", description := "D", products := [], materials := [],
    gstInfo := "G", contactNumber := "C",
    vacancy := { available := false, description := none }, owner := 1,
    images := [] }

/-- Industry update body with every field missing. -/
def emptyIndustryBody : IndustryBody :=
  { name := none, description := none, products := none, materials := none,
    gstInfo := none, contactNumber := none, vacancy := none, images := none }

/-- User whose expiryDate lies in the past while the stored status is still
active (no save has run since expiry). -/
def expiredActiveUser : User :=
  { username := "u", email := "u@x.com", password := "pw", role := "member",
    status := "active", expiryDate := 0 }

/- ================= Helper lemmas ========================================= -/

theorem lookupId_setById_self {α : Type} (st : List (Nat × α)) (id : Nat) (a b : α)
    (h : lookupId st id = some a) : lookupId (setById st id b) id = some b := by
  induction st with
  | nil => simp [lookupId] at h
  | cons e rest ih =>
    by_cases he : e.1 = id
    · simp [setById, he, lookupId]
    · simp only [lookupId, if_neg he] at h
      simp only [setById, if_neg he, lookupId, if_neg he]
      exact ih h

theorem lookupId_removeById_self {α : Type} (st : List (Nat × α)) (id : Nat) :
    lookupId (removeById st id) id = none := by
  induction st with
  | nil => simp [removeById, lookupId]
  | cons e rest ih =>
    by_cases he : e.1 = id
    · simpa [removeById, he] using ih
    · simpa [removeById, he, lookupId] using ih

theorem sumVotes_incVotes (l : List PollOption) (i : Nat) (h : i < l.length) :
    sumVotes (incVotes l i) = sumVotes l + 1 := by
  induction l generalizing i with
  | nil => simp at h
  | cons o rest ih =>
    cases i with
    | zero => simp [incVotes, sumVotes]; omega
    | succ n =>
      simp only [incVotes, sumVotes]
      rw [ih n (by simpa using h)]
      omega

theorem count_le_one_append (l : List Nat) (u v : Nat) (hu : u ∉ l)
    (h : List.count v l ≤ 1) : List.count v (l ++ [u]) ≤ 1 := by
  rw [List.count_append]
  by_cases hv : v = u
  · subst hv
    have h0 : List.count v l = 0 := by rw [List.count_eq_zero]; exact hu
    simp [h0]
  · have h1 : List.count v [u] = 0 := by
      simp [List.count_singleton']
      omega
    omega

theorem nodup_append_singleton (l : List Nat) (u : Nat) (hu : u ∉ l)
    (h : l.Nodup) : (l ++ [u]).Nodup := by
  simp [List.nodup_append, h, hu]

/- ================= Claim theorems ======================================== -/

/-- Claim C1: on a vote request for an existing, non-expired poll, a user
whose id is already in votedBy is rejected with the Conflict-class response
(400, already voted) and the store is unchanged; every accepted vote raises
the total vote count across the options by exactly 1 and appends the user
id to votedBy, and it preserves the property that any given user id occurs
at most once in votedBy.  (An expired poll is rejected earlier, with the
Expired-class response, which is why non-expiry is hypothesised here.) -/
theorem claim_C1_poll_duplicate_vote_guard (st : List (Nat × Poll)) (pid u : Nat)
    (p : Poll) (oid : Option Int) (now : Int)
    (hfind : lookupId st pid = some p) (hexp : ¬ p.expiresAt < now) :
    (u ∈ p.votedBy → putVote st pid u oid now = (.alreadyVoted, st)) ∧
    (∀ saved : Poll, (putVote st pid u oid now).1 = .voted saved →
      totalVotes saved = totalVotes p + 1 ∧
      saved.votedBy = p.votedBy ++ [u] ∧
      (∀ v : Nat, List.count v p.votedBy ≤ 1 → List.count v saved.votedBy ≤ 1)) := by
  constructor
  · intro hm
    simp only [putVote, hfind]
    rw [if_neg hexp, if_pos hm]
  · intro saved hsaved
    simp only [putVote, hfind] at hsaved
    rw [if_neg hexp] at hsaved
    by_cases hm : u ∈ p.votedBy
    · rw [if_pos hm] at hsaved
      simp at hsaved
    · rw [if_neg hm] at hsaved
      cases oid with
      | none => simp at hsaved
      | some i =>
        simp only [] at hsaved
        by_cases hb : i < 0 ∨ i ≥ (p.options.length : Int)
        · rw [if_pos hb] at hsaved
          simp at hsaved
        · rw [if_neg hb] at hsaved
          simp only at hsaved
          injection hsaved with heq
          subst heq
          push_neg at hb
          refine ⟨?_, rfl, ?_⟩
          · show sumVotes (incVotes p.options i.toNat) = sumVotes p.options + 1
            exact sumVotes_incVotes p.options i.toNat (by omega)
          · intro v hv
            exact count_le_one_append p.votedBy u v hm hv

/-- Claim C1 witness: in the concrete two-option poll, the duplicate vote
by user 7 is rejected with the Conflict-class response and the store is
unchanged, and the accepted vote by user 9 raises the total vote count
from 0 to 1. -/
theorem claim_C1_witness :
    putVote [(1, pollA)] 1 7 (some 0) 50 = (.alreadyVoted, [(1, pollA)]) ∧
    totalVotes pollA9 = totalVotes pollA + 1 :=
  ⟨(claim_C1_poll_duplicate_vote_guard [(1, pollA)] 1 7 pollA (some 0) 50
      (by decide) (by decide)).1 (by decide),
   ((claim_C1_poll_duplicate_vote_guard [(1, pollA)] 1 9 pollA (some 0) 50
      (by decide) (by decide)).2 pollA9 (by decide)).1⟩

/-- Claim C9: a vote request on an existing poll whose expiresAt lies in
the past is rejected with the Expired-class response (400, poll expired)
and the store is unchanged; a vote request on a non-expired poll by a
fresh voter whose optionId is out of bounds is rejected with the
ValidationError/BadRequest-class response (400, invalid option) and the
store is unchanged. -/
theorem claim_C9_poll_expiry_and_bounds (st : List (Nat × Poll)) (pid u : Nat)
    (p : Poll) (oid : Option Int) (now : Int)
    (hfind : lookupId st pid = some p) :
    (p.expiresAt < now → putVote st pid u oid now = (.pollExpired, st)) ∧
    (¬ p.expiresAt < now → u ∉ p.votedBy →
      ∀ i : Int, oid = some i → (i < 0 ∨ i ≥ (p.options.length : Int)) →
        putVote st pid u oid now = (.invalidOption, st)) := by
  constructor
  · intro hexp
    simp only [putVote, hfind]
    rw [if_pos hexp]
  · intro hexp hm i hoid hb
    subst hoid
    simp only [putVote, hfind]
    rw [if_neg hexp, if_neg hm, if_pos hb]

/-- Claim C9 witness: voting at time 200 on the poll that expired at 100 is
rejected as expired, and user 9 voting with optionId 5 on the two-option
poll at time 50 is rejected as an invalid option; the store is unchanged in
both cases. -/
theorem claim_C9_witness :
    putVote [(1, pollA)] 1 9 (some 0) 200 = (.pollExpired, [(1, pollA)]) ∧
    putVote [(1, pollA)] 1 9 (some 5) 50 = (.invalidOption, [(1, pollA)]) :=
  ⟨(claim_C9_poll_expiry_and_bounds [(1, pollA)] 1 9 pollA (some 0) 200
      (by decide)).1 (by decide),
   (claim_C9_poll_expiry_and_bounds [(1, pollA)] 1 9 pollA (some 5) 50
      (by decide)).2 (by decide) (by decide) 5 rfl (by decide)⟩

/-- Claim C10: a vote request on an existing, non-expired poll by a fresh
voter whose body carries no numeric optionId passes both bounds
comparisons (JS comparisons with undefined are false), faults when
indexing the options array, and is answered by the catch branch with the
generic 500 server error; the poll store is not modified. -/
theorem claim_C10_missing_optionId_server_error (st : List (Nat × Poll))
    (pid u : Nat) (p : Poll) (now : Int)
    (hfind : lookupId st pid = some p) (hexp : ¬ p.expiresAt < now)
    (hm : u ∉ p.votedBy) :
    putVote st pid u none now = (.serverError, st) := by
  simp only [putVote, hfind]
  rw [if_neg hexp, if_neg hm]

/-- Claim C10 witness: the concrete poll with a fresh voter and an absent
optionId yields the 500 outcome with the store unchanged. -/
theorem claim_C10_witness :
    putVote [(1, pollA)] 1 9 none 50 = (.serverError, [(1, pollA)]) :=
  claim_C10_missing_optionId_server_error [(1, pollA)] 1 9 pollA 50
    (by decide) (by decide) (by decide)

/-- Claim C2: a registration request by a user already in registeredUsers
is rejected with the Conflict-class response (400, already registered) and
the store is unchanged; a request by a fresh user when the registration
count has reached capacity is rejected with the CapacityExceeded-class
response (400, workshop full) and the store is unchanged; and every
workshop state reachable from creation (with the non-negative capacity of
the specified data model) through accepted registrations has duplicate-free
registeredUsers of size at most capacity. -/
theorem claim_C2_workshop_registration (st : List (Nat × Workshop)) (wid u : Nat)
    (w : Workshop) (hfind : lookupId st wid = some w) :
    (u ∈ w.registeredUsers → postRegister st wid u = (.alreadyRegistered, st)) ∧
    (u ∉ w.registeredUsers → (w.registeredUsers.length : Int) ≥ w.capacity →
       postRegister st wid u = (.workshopFull, st)) ∧
    (WorkshopReachable w →
       w.registeredUsers.Nodup ∧ (w.registeredUsers.length : Int) ≤ w.capacity) := by
  refine ⟨?_, ?_, ?_⟩
  · intro hm
    simp only [postRegister, hfind, registerW]
    rw [if_pos hm]
  · intro hm hc
    simp only [postRegister, hfind, registerW]
    rw [if_neg hm, if_pos hc]
  · intro hreach
    clear hfind
    induction hreach with
    | created t d loc dt cap cb hcap =>
      exact ⟨List.nodup_nil, by simpa using hcap⟩
    | registered w2 saved u2 hreach hstep ih =>
      unfold registerW at hstep
      by_cases hm : u2 ∈ w2.registeredUsers
      · rw [if_pos hm] at hstep; cases hstep
      · rw [if_neg hm] at hstep
        by_cases hc : (w2.registeredUsers.length : Int) ≥ w2.capacity
        · rw [if_pos hc] at hstep; cases hstep
        · rw [if_neg hc] at hstep
          injection hstep with heq
          subst heq
          refine ⟨nodup_append_singleton _ _ hm ih.1, ?_⟩
          push_neg at hc
          simp only [List.length_append, List.length_cons, List.length_nil]
          push_cast
          omega

/-- Claim C2 witness: on the capacity-1 workshop with user 3 registered,
registering user 3 again is the Conflict-class rejection and registering
user 4 is the CapacityExceeded-class rejection, both leaving the store
unchanged; and the reachable workshop built by registering user 5 on a
fresh capacity-2 workshop satisfies the invariant. -/
theorem claim_C2_witness :
    postRegister [(1, wsA)] 1 3 = (.alreadyRegistered, [(1, wsA)]) ∧
    postRegister [(1, wsA)] 1 4 = (.workshopFull, [(1, wsA)]) ∧
    (wsB5.registeredUsers.Nodup ∧ (wsB5.registeredUsers.length : Int) ≤ wsB5.capacity) :=
  ⟨(claim_C2_workshop_registration [(1, wsA)] 1 3 wsA (by decide)).1 (by decide),
   (claim_C2_workshop_registration [(1, wsA)] 1 4 wsA (by decide)).2.1
     (by decide) (by decide),
   (claim_C2_workshop_registration [(1, wsB5)] 1 5 wsB5 (by decide)).2.2
     (WorkshopReachable.registered wsB wsB5 5
        (WorkshopReachable.created "W" "D" "L" 10 2 1 (by decide))
        (by decide))⟩

/-- Claim C5 (amended): the order of failure checks is route-specific, not
uniform.  The workshops update route checks input validity first, then the
admin role, then existence; the polls delete route checks the admin role
before existence; the industries update and delete routes check existence
before ownership.  In particular a workshop update with invalid input
yields the validation error even when the workshop is missing, and a
non-admin poll delete yields the authorization error even when the poll is
missing. -/
theorem claim_C5_check_order_per_route (role : String) (wst : List (Nat × Workshop))
    (wid : Nat) (b : WorkshopBody) (pst : List (Nat × Poll)) (pid : Nat)
    (ist : List (Nat × Industry)) (iid callerId : Nat) (ib : IndustryBody) :
    (workshopBodyValid b = false → putWorkshop role wst wid b = (.validationError, wst)) ∧
    (workshopBodyValid b = true → role ≠ "admin" →
       putWorkshop role wst wid b = (.notAuthorized, wst)) ∧
    (workshopBodyValid b = true → lookupId wst wid = none →
       putWorkshop "admin" wst wid b = (.notFound, wst)) ∧
    (role ≠ "admin" → deletePoll role pst pid = (.notAuthorized, pst)) ∧
    (lookupId pst pid = none → deletePoll "admin" pst pid = (.notFound, pst)) ∧
    (lookupId ist iid = none →
       putIndustry callerId role ist iid ib = (.notFound, ist) ∧
       deleteIndustry callerId role ist iid = (.notFound, ist)) := by
  refine ⟨?_, ?_, ?_, ?_, ?_, ?_⟩
  · intro hv
    simp [putWorkshop, hv]
  · intro hv hrole
    simp [putWorkshop, hv, hrole]
  · intro hv hnone
    simp [putWorkshop, hv, hnone]
  · intro hrole
    simp [deletePoll, hrole]
  · intro hnone
    simp [deletePoll, hnone]
  · intro hnone
    exact ⟨by simp [putIndustry, hnone], by simp [deleteIndustry, hnone]⟩

/-- Claim C5 counterexample: a workshop update that both targets a missing
workshop and carries invalid input is answered with the validation error,
not NotFound as the claimed uniform order requires; and a non-admin poll
delete on a missing poll is answered with the authorization error, not
NotFound. -/
theorem claim_C5_counterexample :
    putWorkshop "admin" [] 1 emptyWorkshopBody = (.validationError, []) ∧
    (WorkshopPutOutcome.validationError ≠ WorkshopPutOutcome.notFound) ∧
    deletePoll "member" [] 1 = (.notAuthorized, []) ∧
    (PollDeleteOutcome.notAuthorized ≠ PollDeleteOutcome.notFound) := by
  decide

/-- Claim C5 witness: the amended per-route orders at concrete inputs. -/
theorem claim_C5_witness :
    putWorkshop "member" [(1, wsA)] 1 validWorkshopBody = (.notAuthorized, [(1, wsA)]) ∧
    putWorkshop "admin" [] 1 validWorkshopBody = (.notFound, []) ∧
    deletePoll "admin" [] 1 = (.notFound, []) ∧
    putIndustry 2 "member" [] 1 emptyIndustryBody = (.notFound, []) :=
  ⟨(claim_C5_check_order_per_route "member" [(1, wsA)] 1 validWorkshopBody [] 1
      [] 1 2 emptyIndustryBody).2.1 (by decide) (by decide),
   (claim_C5_check_order_per_route "member" [] 1 validWorkshopBody [] 1
      [] 1 2 emptyIndustryBody).2.2.1 (by decide) rfl,
   (claim_C5_check_order_per_route "member" [] 1 validWorkshopBody [] 1
      [] 1 2 emptyIndustryBody).2.2.2.2.1 rfl,
   ((claim_C5_check_order_per_route "member" [] 1 validWorkshopBody [] 1
      [] 1 2 emptyIndustryBody).2.2.2.2.2 rfl).1⟩

/-- Claim C3 (code bug): on the update path, changing type away from blogs
does not clear the stored redirectUrl.  The handler assigns undefined to
the body field and Mongoose 6 strips undefined keys from $set, so the old
URL survives in the stored document even when the caller supplied a new
one, violating the invariant that a stored non-blogs update has no
redirectUrl; the create path by contrast never persists a redirectUrl for
a non-blogs type, so the rule is not enforced identically on both
paths. -/
theorem claim_C3_redirect_not_cleared :
    putUpdate "admin" [(1, blogUpdateDoc)] 1 awayFromBlogsBody =
      (.saved newsKeptDoc, [(1, newsKeptDoc)]) ∧
    newsKeptDoc.type ≠ "blogs" ∧
    newsKeptDoc.redirectUrl = some "http://old" ∧
    postUpdate "admin" 1 awayFromBlogsBody none = .saved newsCreatedDoc ∧
    newsCreatedDoc.redirectUrl = none := by
  decide

/-- Claim C4: deleting a feedback question as admin has two branches: when
at least one response references the question it is not removed, its
isActive flag is set to false, the distinct deactivation message is
returned and the question stays retrievable; when no response references
it, it is removed and becomes unretrievable. -/
theorem claim_C4_question_soft_delete (st : FeedbackStore) (qid : Nat)
    (q : FeedbackQuestion) (hq : lookupId st.questions qid = some q) :
    (0 < (st.responses.filter (fun r => r.feedbackId == qid)).length →
       deleteQuestion "admin" st qid =
         (.deactivated,
          { st with questions := setById st.questions qid { q with isActive := false } }) ∧
       getQuestion (deleteQuestion "admin" st qid).2 qid =
         .found { q with isActive := false }) ∧
    ((st.responses.filter (fun r => r.feedbackId == qid)).length = 0 →
       deleteQuestion "admin" st qid =
         (.removed, { st with questions := removeById st.questions qid }) ∧
       getQuestion (deleteQuestion "admin" st qid).2 qid = .notFound) ∧
    questionDeleteMsg .deactivated ≠ questionDeleteMsg .removed := by
  have hne : ¬ (("admin" : String) ≠ "admin") := fun h => h rfl
  refine ⟨?_, ?_, by decide⟩
  · intro hlen
    have hd : deleteQuestion "admin" st qid =
        (.deactivated,
         { st with questions := setById st.questions qid { q with isActive := false } }) := by
      simp only [deleteQuestion, hq]
      rw [if_neg hne, if_pos hlen]
    refine ⟨hd, ?_⟩
    rw [hd]
    simp only [getQuestion]
    rw [lookupId_setById_self st.questions qid q _ hq]
  · intro hlen
    have hd : deleteQuestion "admin" st qid =
        (.removed, { st with questions := removeById st.questions qid }) := by
      simp only [deleteQuestion, hq]
      rw [if_neg hne, if_neg (by omega)]
    refine ⟨hd, ?_⟩
    rw [hd]
    simp only [getQuestion]
    rw [lookupId_removeById_self st.questions qid]

/-- Claim C4 witness: deleting question 1 in the store that holds one
response to it deactivates instead of removing and the question stays
retrievable; deleting it in the store with no responses removes it and it
becomes unretrievable. -/
theorem claim_C4_witness :
    (deleteQuestion "admin" stWithResp 1 =
       (.deactivated,
        { stWithResp with
          questions := setById stWithResp.questions 1 { qActive with isActive := false } }) ∧
     getQuestion (deleteQuestion "admin" stWithResp 1).2 1 =
       .found { qActive with isActive := false }) ∧
    (deleteQuestion "admin" stNoResp 1 =
       (.removed, { stNoResp with questions := removeById stNoResp.questions 1 }) ∧
     getQuestion (deleteQuestion "admin" stNoResp 1).2 1 = .notFound) :=
  ⟨(claim_C4_question_soft_delete stWithResp 1 qActive (by decide)).1 (by decide),
   (claim_C4_question_soft_delete stNoResp 1 qActive (by decide)).2.1 (by decide)⟩

/-- Claim C6: a feedback response submission is accepted only when the
question exists, is active, is unexpired and no prior response by the same
user for the same question exists; a second submission by the same user
for the same question is rejected with the Conflict-class response (400,
already submitted) leaving the store unchanged; and every submission
preserves the invariant of at most one response per (question, user)
pair. -/
theorem claim_C6_response_uniqueness (st : FeedbackStore) (u fid : Nat)
    (resp : String) (rating : Option Int) (now : Int) :
    (∀ r, (postResponse st u fid resp rating now).1 = .saved r →
       submissionPreconditions st u fid now = true) ∧
    (∀ q, lookupId st.questions fid = some q → q.isActive = true →
       questionExpired q now = false → resp ≠ "" →
       st.responses.any (responsePair fid u) = true →
       postResponse st u fid resp rating now = (.alreadyResponded, st)) ∧
    (atMostOneResponse st →
       atMostOneResponse (postResponse st u fid resp rating now).2) := by
  refine ⟨?_, ?_, ?_⟩
  · intro r hsaved
    by_cases hresp : resp = ""
    · simp [postResponse, hresp] at hsaved
    · cases hq : lookupId st.questions fid with
      | none => simp [postResponse, hresp, hq] at hsaved
      | some q =>
        by_cases hact : q.isActive = false
        · simp [postResponse, hresp, hq, hact] at hsaved
        · by_cases hex : questionExpired q now = true
          · simp [postResponse, hresp, hq, hact, hex] at hsaved
          · by_cases hdup : st.responses.any (responsePair fid u) = true
            · simp [postResponse, hresp, hq, hact, hex, hdup] at hsaved
            · have hact2 : q.isActive = true := by simpa using hact
              have hex2 : questionExpired q now = false := by simpa using hex
              have hdup2 : st.responses.any (responsePair fid u) = false := by
                simpa using hdup
              simp [submissionPreconditions, hq, hact2, hex2, hdup2]
  · intro q hq hact hex hresp hdup
    simp [postResponse, hresp, hq, hact, hex, hdup]
  · intro hinv
    by_cases hresp : resp = ""
    · simpa [postResponse, hresp] using hinv
    · cases hq : lookupId st.questions fid with
      | none => simpa [postResponse, hresp, hq] using hinv
      | some q =>
        by_cases hact : q.isActive = false
        · simpa [postResponse, hresp, hq, hact] using hinv
        · by_cases hex : questionExpired q now = true
          · simpa [postResponse, hresp, hq, hact, hex] using hinv
          · by_cases hdup : st.responses.any (responsePair fid u) = true
            · simpa [postResponse, hresp, hq, hact, hex, hdup] using hinv
            · intro fid2 u2
              have hsnd : (postResponse st u fid resp rating now).2 =
                  { st with
                    responses := st.responses ++ [newResponse u fid resp rating] } := by
                simp [postResponse, hresp, hq, hact, hex, hdup]
              rw [hsnd]
              show List.countP (responsePair fid2 u2)
                  (st.responses ++ [newResponse u fid resp rating]) ≤ 1
              rw [List.countP_append]
              by_cases hpair : fid = fid2 ∧ u = u2
              · obtain ⟨h1, h2⟩ := hpair
                subst h1
                subst h2
                have h0 : List.countP (responsePair fid u) st.responses = 0 := by
                  rw [List.countP_eq_zero]
                  intro a ha
                  have hfa : st.responses.any (responsePair fid u) = false := by
                    simpa using hdup
                  rw [List.any_eq_false] at hfa
                  exact hfa a ha
                rw [h0]
                simp [List.countP_cons, responsePair, newResponse]
              · have h1 : responsePair fid2 u2 (newResponse u fid resp rating) = false := by
                  simp only [responsePair, newResponse]
                  simp
                  tauto
                have h2 : List.countP (responsePair fid2 u2)
                    [newResponse u fid resp rating] = 0 := by
                  simp [List.countP_cons, h1]
                have h3 := hinv fid2 u2
                omega

/-- Claim C6 witness: the fresh submission by user 7 for question 1
satisfies the acceptance preconditions, and the second submission by the
same user for the same question is rejected with the Conflict-class
response leaving the store unchanged. -/
theorem claim_C6_witness :
    submissionPreconditions stNoResp 7 1 10 = true ∧
    postResponse stWithResp 7 1 "again" none 10 = (.alreadyResponded, stWithResp) :=
  ⟨(claim_C6_response_uniqueness stNoResp 7 1 "fine" none 10).1
      (newResponse 7 1 "fine" none) (by decide),
   (claim_C6_response_uniqueness stWithResp 7 1 "again" none 10).2.1 qActive
      (by decide) (by decide) (by decide) (by decide) (by decide)⟩

/-- Claim C7: an industry update or delete by an authenticated caller who
is neither the owner nor an admin is rejected with the Forbidden-class
response (401, not authorized) and the store is unchanged; the owner and
any admin reach the mutation (the update is applied, the delete removes
the document). -/
theorem claim_C7_industry_ownership (st : List (Nat × Industry)) (id callerId : Nat)
    (role : String) (ind : Industry) (b : IndustryBody)
    (hfind : lookupId st id = some ind) :
    (ind.owner ≠ callerId → role ≠ "admin" →
       putIndustry callerId role st id b = (.notAuthorized, st) ∧
       deleteIndustry callerId role st id = (.notAuthorized, st)) ∧
    (ind.owner = callerId ∨ role = "admin" →
       putIndustry callerId role st id b =
         (.updated (applyIndustrySet ind b), setById st id (applyIndustrySet ind b)) ∧
       deleteIndustry callerId role st id = (.removed, removeById st id)) := by
  constructor
  · intro h1 h2
    constructor
    · simp only [putIndustry, hfind]
      rw [if_pos ⟨h1, h2⟩]
    · simp only [deleteIndustry, hfind]
      rw [if_pos ⟨h1, h2⟩]
  · intro hok
    have hneg : ¬ (ind.owner ≠ callerId ∧ role ≠ "admin") := by
      rcases hok with h | h
      · exact fun hc => hc.1 h
      · exact fun hc => hc.2 h
    constructor
    · simp only [putIndustry, hfind]
      rw [if_neg hneg]
    · simp only [deleteIndustry, hfind]
      rw [if_neg hneg]

/-- Claim C7 witness: on the industry owned by user 1, caller 2 with role
member is rejected on both update and delete with the store unchanged; the
owner (caller 1, role member) and an admin (caller 2, role admin) both
reach the mutation. -/
theorem claim_C7_witness :
    (putIndustry 2 "member" [(1, indA)] 1 emptyIndustryBody =
       (.notAuthorized, [(1, indA)]) ∧
     deleteIndustry 2 "member" [(1, indA)] 1 = (.notAuthorized, [(1, indA)])) ∧
    (putIndustry 1 "member" [(1, indA)] 1 emptyIndustryBody =
       (.updated (applyIndustrySet indA emptyIndustryBody),
        setById [(1, indA)] 1 (applyIndustrySet indA emptyIndustryBody)) ∧
     deleteIndustry 1 "member" [(1, indA)] 1 = (.removed, removeById [(1, indA)] 1)) ∧
    (putIndustry 2 "admin" [(1, indA)] 1 emptyIndustryBody =
       (.updated (applyIndustrySet indA emptyIndustryBody),
        setById [(1, indA)] 1 (applyIndustrySet indA emptyIndustryBody)) ∧
     deleteIndustry 2 "admin" [(1, indA)] 1 = (.removed, removeById [(1, indA)] 1)) :=
  ⟨(claim_C7_industry_ownership [(1, indA)] 1 2 "member" indA emptyIndustryBody
      (by decide)).1 (by decide) (by decide),
   (claim_C7_industry_ownership [(1, indA)] 1 1 "member" indA emptyIndustryBody
      (by decide)).2 (Or.inl (by decide)),
   (claim_C7_industry_ownership [(1, indA)] 1 2 "admin" indA emptyIndustryBody
      (by decide)).2 (Or.inr rfl)⟩

/-- Claim C8 counterexample: the user whose expiryDate (time 0) lies
before the current time (5) but whose stored status is still active logs
in successfully with the correct credentials, so the claimed consequence
that login fails once expiryDate has passed is false on the code: the
login route reads only the stored status, never expiryDate. -/
theorem claim_C8_counterexample :
    expiredActiveUser.expiryDate < 5 ∧
    login [expiredActiveUser] "u@x.com" "pw" = .loggedIn "member" := by
  decide

/-- Claim C8 (amended): the expiry condition is checked at each save of
the user (the pre-save hook flips status to inactive once expiryDate has
passed) and login rejects any account whose stored status is not active;
login itself performs no expiryDate check, so the expired user is locked
out only after the next save: a user saved at a time past expiry cannot
authenticate. -/
theorem claim_C8_expiry_amended (u : User) (now : Int) (users : List User)
    (email pw : String) :
    (u.expiryDate < now → (preSaveExpiry u now).status = "inactive") ∧
    (∀ v : User, users.find? (fun x => x.email == email) = some v →
       v.status ≠ "active" → login users email pw = .accountInactive) ∧
    (u.expiryDate < now → (preSaveExpiry u now).email = email →
       login [preSaveExpiry u now] email pw = .accountInactive) := by
  refine ⟨?_, ?_, ?_⟩
  · intro hexp
    simp [preSaveExpiry, hexp]
  · intro v hv hst
    simp only [login, hv]
    rw [if_pos hst]
  · intro hexp hemail
    have hst : (preSaveExpiry u now).status = "inactive" := by
      simp [preSaveExpiry, hexp]
    have hfind : List.find? (fun x => x.email == email) [preSaveExpiry u now] =
        some (preSaveExpiry u now) := by
      simp [List.find?, hemail]
    simp only [login, hfind]
    rw [if_pos (by rw [hst]; decide)]

/-- Claim C8 witness: saving the expired user at time 5 flips the status
to inactive, and the login attempt after that save is rejected with the
inactive-account response. -/
theorem claim_C8_witness :
    (preSaveExpiry expiredActiveUser 5).status = "inactive" ∧
    login [preSaveExpiry expiredActiveUser 5] "u@x.com" "pw" = .accountInactive :=
  ⟨(claim_C8_expiry_amended expiredActiveUser 5 [] "u@x.com" "pw").1 (by decide),
   (claim_C8_expiry_amended expiredActiveUser 5 [] "u@x.com" "pw").2.2
     (by decide) (by decide)⟩

end HDIL
